import Mathlib

/-!
# GeoGlobe: a shallow embedding of `src/libraries/GeoGlobe.js`

The class of `GeoGlobe.js` is embedded as a record of its instance fields
(`GlobeState`) and one function per method (`construct`, `build`,
`placeMarker`, `cameraZoomOn`, `coordsFromLongAndLat`, `animate`).

* JavaScript numbers are the elements of a field `R` (exact arithmetic); the
  theorems about trigonometry take `R = ℝ`.
* The `Math` object is a record `MathObj R`; over the reals it is
  `⟨Real.pi, Real.sin, Real.cos⟩`.  The constant `Math.PI` of the language is
  not π but the IEEE double nearest to it, `884279719003555 / 2^48`; the
  theorems that say "over exact real arithmetic" take `Math.PI = π`, and
  `coords_origin_counterexample` shows what the double constant changes.
* The two libraries the class calls (three.js and the tween library) are not
  part of the repository.  What the class asks of them, `localToWorld` and
  `TWEEN.update`, is a record `Engine R` that every operation takes as a
  parameter, so each theorem holds for whatever the libraries compute.
* A call that ends in a `TypeError` (a field still `undefined`) is `none`.
-/

namespace GeoGlobe

/-! ## Data model -/

/-- Three numeric components: a `THREE.Vector3`, a `THREE.Euler`, or a plain
`{x, y, z}` object literal. -/
structure Vec3 (R : Type) where
  x : R
  y : R
  z : R

/-- The members of the JavaScript `Math` object that the source reads. -/
structure MathObj (R : Type) where
  PI : R
  sin : R → R
  cos : R → R

/-- Arguments of `new THREE.SphereGeometry(radius, widthSegments, heightSegments)`. -/
structure SphereGeometry (R : Type) where
  radius : R
  widthSegments : Nat
  heightSegments : Nat

/-- Argument of `new THREE.MeshBasicMaterial(...)`: a texture map loaded from
a path, or a plain colour. -/
inductive Material where
  | map (texturePath : String)
  | color (hex : Nat)

/-- A marker: the mesh created by `placeMarker`, a child of the sphere. -/
structure Marker (R : Type) where
  geometry : SphereGeometry R
  material : Material
  position : Vec3 R

/-- The globe mesh `this.sphere`, with the markers attached to it. -/
structure Mesh (R : Type) where
  geometry : SphereGeometry R
  material : Material
  position : Vec3 R
  rotation : Vec3 R
  children : List (Marker R)

/-- The camera `this.camera`.  `serial` tells camera objects created by
different calls of `build` apart; `lookAt` is the last point handed to
`camera.lookAt`, `none` before the first call. -/
structure Camera (R : Type) where
  serial : Nat
  fov : R
  aspect : R
  near : R
  far : R
  position : Vec3 R
  lookAt : Option (Vec3 R)

/-- The renderer `this.renderer`: the `alpha` option it was created with, the
arguments of `setSize` and of `setClearColor` once these were called, and the
number of calls of `render`. -/
structure Renderer (R : Type) where
  alpha : Bool
  size : Option (R × R)
  clearColor : Option (Nat × R)
  frames : Nat

/-- The scene `this.scene`; it refers to the sphere once `scene.add` ran. -/
structure Scene where
  sphereAttached : Bool

/-- Which camera property the `onUpdate` callback of a tween writes. -/
inductive Channel where
  | lookAt
  | position
  deriving DecidableEq

/-- Easing functions of the tween library that the source names. -/
inductive Easing where
  | linearNone
  | quadraticInOut
  deriving DecidableEq

/-- A started tween: `new TWEEN.Tween(object).to(target, duration).easing(e)
.onUpdate(cb).start()`.  `camera` is the serial of the camera object the
callback closes over (`const camera = this.camera`). -/
structure Tween (R : Type) where
  camera : Nat
  channel : Channel
  object : Vec3 R
  target : Vec3 R
  duration : R
  easing : Easing

/-- The library calls whose results the class uses.
`localToWorld s v` is `s.localToWorld(v)`.
`tweenUpdate reg` is `TWEEN.update()` on the registry `reg` of started tweens:
it returns the registry afterwards and, in call order, the tweens whose
`onUpdate` callback ran, with `object` holding the interpolated values. -/
structure Engine (R : Type) where
  localToWorld : Mesh R → Vec3 R → Vec3 R
  tweenUpdate : List (Tween R) → List (Tween R) × List (Tween R)

/-- Instance fields of the class (lines 9-49), the registry of started tweens,
the number of frame callbacks requested with `requestAnimationFrame`, and the
serial for the next camera object. -/
structure GlobeState (R : Type) where
  sceneWidth : R
  sceneHeight : R
  radius : R
  texturePath : String
  scene : Option Scene
  camera : Option (Camera R)
  renderer : Option (Renderer R)
  sphere : Option (Mesh R)
  isAnimating : Bool
  tweens : List (Tween R)
  scheduled : Nat
  nextSerial : Nat

/-- The `currentLookAt` argument of `cameraZoomOn`; a property that is not set
(`undefined`) is `none`. -/
structure LookAtArg (R : Type) where
  x : Option R
  y : Option R
  z : Option R

/-- The destructured argument `{coords, currentLookAt}` of `cameraZoomOn`. -/
structure ZoomArgs (R : Type) where
  coords : Vec3 R
  currentLookAt : LookAtArg R

/-! ## Operations -/

section Ops

variable {R : Type} [Field R]

/-- The expression `a || b` for a possibly unset number `a`: `a` when it is
truthy (set and not zero), otherwise `b`.  `b` is only evaluated in the second
case; it is `none` when evaluating it throws. -/
def jsOr [DecidableEq R] (a : Option R) (b : Option R) : Option R :=
  match a with
  | some v => if v = 0 then b else some v
  | none => b

/-- The constructor (lines 57-63): a parameter left out takes its default. -/
def construct (sceneWidth sceneHeight radius : Option R) (texturePath : String) :
    GlobeState R :=
  { sceneWidth := sceneWidth.getD 500
    sceneHeight := sceneHeight.getD 500
    radius := radius.getD 1
    texturePath := texturePath
    scene := none
    camera := none
    renderer := none
    sphere := none
    isAnimating := false
    tweens := []
    scheduled := 0
    nextSerial := 0 }

/-- The method `coordsFromLongAndLat` (lines 174-185). -/
def coordsFromLongAndLat (M : MathObj R) (g : GlobeState R) (latitude longitude : R) :
    Vec3 R :=
  let latitude := (M.PI * latitude / 180) - (90 * (M.PI / 180))
  let longitude := M.PI * longitude / 180
  { x := g.radius * M.sin latitude * M.cos longitude
    z := g.radius * M.sin latitude * M.sin longitude
    y := g.radius * M.cos latitude }

/-- The `onUpdate` callbacks of lines 155-157 and 163-165, run on the camera
object they close over. -/
def onUpdate (c : Camera R) (t : Tween R) : Camera R :=
  if c.serial = t.camera then
    match t.channel with
    | Channel.lookAt => { c with lookAt := some ⟨t.object.x, t.object.y, t.object.z⟩ }
    | Channel.position => { c with position := ⟨t.object.x, t.object.y, t.object.z⟩ }
  else c

/-- The call `renderer.render(scene, camera)`. -/
def Renderer.render (r : Renderer R) : Renderer R :=
  { r with frames := r.frames + 1 }

/-- The method `animate` (lines 190-198): the state after one call.  When
`this.renderer` is still `undefined` the call ends in a `TypeError` at line 197,
after the changes of lines 192-196 (see `animateCompletes`). -/
def animate (E : Engine R) (g : GlobeState R) : GlobeState R :=
  let g := { g with scheduled := g.scheduled + 1 }
  let g :=
    match g.sphere with
    | some s =>
      if g.isAnimating = false then
        { g with sphere := some { s with rotation := { s.rotation with y := s.rotation.y + 0.002 } } }
      else g
    | none => g
  let upd := E.tweenUpdate g.tweens
  let g := { g with tweens := upd.1, camera := g.camera.map fun c => upd.2.foldl onUpdate c }
  { g with renderer := g.renderer.map Renderer.render }

/-- Whether a call of `animate` returns normally (line 197 needs a renderer). -/
def animateCompletes (g : GlobeState R) : Bool :=
  g.renderer.isSome

/-- The method `build` (lines 68-89): the state after the call. -/
def build (E : Engine R) (g : GlobeState R) : GlobeState R :=
  let scene : Scene := { sphereAttached := false }
  let camera : Camera R :=
    { serial := g.nextSerial, fov := 75, aspect := g.sceneWidth / g.sceneHeight,
      near := 0.1, far := 1000, position := ⟨0, 0, 0⟩, lookAt := none }
  let camera := { camera with position := { camera.position with z := 3 } }
  let renderer : Renderer R :=
    { alpha := true, size := none, clearColor := none, frames := 0 }
  let renderer := { renderer with size := some (g.sceneWidth, g.sceneHeight) }
  let renderer := { renderer with clearColor := some (0xffffff, 0) }
  let material := Material.map g.texturePath
  let geometry : SphereGeometry R := ⟨g.radius, 80, 80⟩
  let sphere : Mesh R :=
    { geometry := geometry, material := material, position := ⟨0, 0, 0⟩,
      rotation := ⟨0, 0, 0⟩, children := [] }
  let sphere := { sphere with rotation := { sphere.rotation with x := 0.4 } }
  let scene := { scene with sphereAttached := true }
  let camera :=
    { camera with lookAt := some ⟨sphere.position.x, sphere.position.y, sphere.position.z⟩ }
  animate E
    { g with
      scene := some scene, camera := some camera, renderer := some renderer,
      sphere := some sphere, nextSerial := g.nextSerial + 1 }

/-- The method `cameraZoomOn` (lines 122-167).  The two tweens are appended to
the registry in the order they are started: look-at, then position. -/
def cameraZoomOn [DecidableEq R] (g : GlobeState R) (a : ZoomArgs R) :
    Option (GlobeState R) :=
  match g.camera with
  | none => none
  | some cam =>
    let fromPosition : Vec3 R := ⟨cam.position.x, cam.position.y, cam.position.z⟩
    match jsOr a.currentLookAt.x (g.sphere.map fun s => s.position.x),
          jsOr a.currentLookAt.y (g.sphere.map fun s => s.position.y),
          jsOr a.currentLookAt.z (g.sphere.map fun s => s.position.z) with
    | some lx, some ly, some lz =>
      let fromLookAt : Vec3 R := ⟨lx, ly, lz⟩
      let toPosition : Vec3 R := ⟨a.coords.x + 0.1, a.coords.y + 0.1, a.coords.z + 0.5⟩
      let toLookAt : Vec3 R := ⟨a.coords.x, a.coords.y, a.coords.z⟩
      let g : GlobeState R := { g with isAnimating := true }
      let lookAtTween : Tween R :=
        { camera := cam.serial, channel := Channel.lookAt, object := fromLookAt,
          target := toLookAt, duration := 2000, easing := Easing.quadraticInOut }
      let g : GlobeState R := { g with tweens := g.tweens ++ [lookAtTween] }
      let positionTween : Tween R :=
        { camera := cam.serial, channel := Channel.position, object := fromPosition,
          target := toPosition, duration := 2000, easing := Easing.quadraticInOut }
      some { g with tweens := g.tweens ++ [positionTween] }
    | _, _, _ => none

/-- The call `sphere.add(marker)`: `marker` becomes the last child. -/
def Mesh.add (s : Mesh R) (m : Marker R) : Mesh R :=
  { s with children := s.children ++ [m] }

/-- Applies `f` to the last element of a list. -/
def updateLast {α : Type} (f : α → α) : List α → List α
  | [] => []
  | [a] => [f a]
  | a :: b :: l => a :: updateLast f (b :: l)

/-- The method `placeMarker` (lines 96-116).  `marker.position.set` runs after
`sphere.add(marker)`, on the mesh that is by then the sphere's last child. -/
def placeMarker [DecidableEq R] (E : Engine R) (M : MathObj R) (g : GlobeState R)
    (latitude longitude : R) : Option (GlobeState R) :=
  let coords := coordsFromLongAndLat M g latitude longitude
  match g.sphere with
  | none => none
  | some s =>
    let zoomCoords := E.localToWorld s ⟨coords.x, coords.y, coords.z⟩
    match cameraZoomOn g
        { coords := zoomCoords,
          currentLookAt := { x := some s.position.x, y := some s.position.y,
                             z := some s.position.z } } with
    | none => none
    | some g =>
      let material := Material.color 0x00ff00
      let geometry : SphereGeometry R := ⟨g.radius / 30, 14, 14⟩
      let marker : Marker R := { geometry := geometry, material := material, position := ⟨0, 0, 0⟩ }
      let g : GlobeState R := { g with sphere := g.sphere.map fun (s : Mesh R) => s.add marker }
      some
        { g with
          sphere := g.sphere.map fun (s : Mesh R) =>
            { s with
              children := updateLast
                (fun (m : Marker R) => { m with position := ⟨coords.x, coords.y, coords.z⟩ })
                s.children } }

end Ops

/-- The total form of `a || b` when `b` is a number. -/
def jsOrNum {R : Type} [Field R] [DecidableEq R] (a : Option R) (b : R) : R :=
  match a with
  | some v => if v = 0 then b else v
  | none => b

/-- CoordinateMapper as the specification writes it (section 4.1):
`lat_rad = π·latitudeDeg/180 − π/2`, `lon_rad = π·longitudeDeg/180`,
`x = radius·sin(lat_rad)·cos(lon_rad)`, `z = radius·sin(lat_rad)·sin(lon_rad)`,
`y = radius·cos(lat_rad)`. -/
def toCartesian {R : Type} [Field R] (M : MathObj R) (latitudeDeg longitudeDeg radius : R) :
    Vec3 R :=
  let lat_rad := M.PI * latitudeDeg / 180 - M.PI / 2
  let lon_rad := M.PI * longitudeDeg / 180
  { x := radius * M.sin lat_rad * M.cos lon_rad
    z := radius * M.sin lat_rad * M.sin lon_rad
    y := radius * M.cos lat_rad }

/-- The squared length of a vector (`Vector3.lengthSq`); over the reals the
length is its square root. -/
def magnitudeSq {R : Type} [Field R] (v : Vec3 R) : R :=
  v.x ^ 2 + v.y ^ 2 + v.z ^ 2

/-- The operations a caller can invoke on a globe. -/
inductive Op (R : Type) where
  | build
  | placeMarker (latitude longitude : R)
  | cameraZoomOn (a : ZoomArgs R)
  | animate

/-- One operation.  A call that ends in a `TypeError` before it wrote anything
leaves the state as it was. -/
def step {R : Type} [Field R] [DecidableEq R] (E : Engine R) (M : MathObj R)
    (g : GlobeState R) : Op R → GlobeState R
  | Op.build => build E g
  | Op.placeMarker latitude longitude => (placeMarker E M g latitude longitude).getD g
  | Op.cameraZoomOn a => (cameraZoomOn g a).getD g
  | Op.animate => animate E g

/-- A sequence of operations, first to last. -/
def run {R : Type} [Field R] [DecidableEq R] (E : Engine R) (M : MathObj R)
    (g : GlobeState R) (ops : List (Op R)) : GlobeState R :=
  ops.foldl (step E M) g

/-- A concrete engine for worked instances.  `localToWorld` rotates by the
mesh's Euler angles (order XYZ) and translates by its position, as three.js does
for an unscaled mesh directly below the scene; `tweenUpdate` is a tick at which
every started tween has run its full duration: it writes its target, calls
`onUpdate` and leaves the registry. -/
def sampleEngine {R : Type} [Field R] (M : MathObj R) : Engine R :=
  { localToWorld := fun s v =>
      let a := M.cos s.rotation.x
      let b := M.sin s.rotation.x
      let c := M.cos s.rotation.y
      let d := M.sin s.rotation.y
      let e := M.cos s.rotation.z
      let f := M.sin s.rotation.z
      { x := c * e * v.x + -(c * f) * v.y + d * v.z + s.position.x
        y := (a * f + b * e * d) * v.x + (a * e - b * f * d) * v.y + -(b * c) * v.z
              + s.position.y
        z := (b * f - a * e * d) * v.x + (b * e + a * f * d) * v.y + a * c * v.z
              + s.position.z }
    tweenUpdate := fun reg => ([], reg.map fun t => { t with object := t.target }) }

/-- The globe of the end-to-end scenario: constructed with radius 2 and the
default sizes, then built. -/
def demoGlobe {R : Type} [Field R] (M : MathObj R) : GlobeState R :=
  build (sampleEngine M) (construct none none (some 2) "earth.jpg")

/-! ## Shared lemmas -/

section Lemmas

variable {R : Type} [Field R]

theorem updateLast_append_singleton {α : Type} (f : α → α) (l : List α) (a : α) :
    updateLast f (l ++ [a]) = l ++ [f a] := by
  induction l with
  | nil => rfl
  | cons b l ih =>
    cases l with
    | nil => rfl
    | cons c l => simpa [updateLast] using ih

theorem jsOr_some_right [DecidableEq R] (a : Option R) (b : R) :
    jsOr a (some b) = some (jsOrNum a b) := by
  cases a with
  | none => rfl
  | some v =>
    by_cases h : v = 0
    · simp [jsOr, jsOrNum, h]
    · simp [jsOr, jsOrNum, h]

theorem jsOrNum_self [DecidableEq R] (b : R) : jsOrNum (some b) b = b := by
  by_cases h : b = 0
  · simp [jsOrNum, h]
  · simp [jsOrNum, h]

/-- The result of `cameraZoomOn` on a globe that has a camera and a sphere. -/
theorem cameraZoomOn_built [DecidableEq R] (g : GlobeState R) (a : ZoomArgs R)
    (cam : Camera R) (s : Mesh R) (hc : g.camera = some cam) (hs : g.sphere = some s) :
    cameraZoomOn g a = some
      { g with
        isAnimating := true
        tweens := g.tweens ++
          [{ camera := cam.serial, channel := Channel.lookAt,
             object := ⟨jsOrNum a.currentLookAt.x s.position.x,
                        jsOrNum a.currentLookAt.y s.position.y,
                        jsOrNum a.currentLookAt.z s.position.z⟩,
             target := ⟨a.coords.x, a.coords.y, a.coords.z⟩,
             duration := 2000, easing := Easing.quadraticInOut },
           { camera := cam.serial, channel := Channel.position,
             object := ⟨cam.position.x, cam.position.y, cam.position.z⟩,
             target := ⟨a.coords.x + 0.1, a.coords.y + 0.1, a.coords.z + 0.5⟩,
             duration := 2000, easing := Easing.quadraticInOut }] } := by
  simp [cameraZoomOn, hc, hs, jsOr_some_right]

/-- The result of `placeMarker` on a globe that has a camera and a sphere. -/
theorem placeMarker_built [DecidableEq R] (E : Engine R) (M : MathObj R) (g : GlobeState R)
    (latitude longitude : R) (cam : Camera R) (s : Mesh R)
    (hc : g.camera = some cam) (hs : g.sphere = some s) :
    placeMarker E M g latitude longitude = some
      { g with
        isAnimating := true
        tweens := g.tweens ++
          [{ camera := cam.serial, channel := Channel.lookAt,
             object := ⟨s.position.x, s.position.y, s.position.z⟩,
             target := E.localToWorld s (coordsFromLongAndLat M g latitude longitude),
             duration := 2000, easing := Easing.quadraticInOut },
           { camera := cam.serial, channel := Channel.position,
             object := ⟨cam.position.x, cam.position.y, cam.position.z⟩,
             target :=
               ⟨(E.localToWorld s (coordsFromLongAndLat M g latitude longitude)).x + 0.1,
                (E.localToWorld s (coordsFromLongAndLat M g latitude longitude)).y + 0.1,
                (E.localToWorld s (coordsFromLongAndLat M g latitude longitude)).z + 0.5⟩,
             duration := 2000, easing := Easing.quadraticInOut }]
        sphere := some
          { s with
            children := s.children ++
              [{ geometry := ⟨g.radius / 30, 14, 14⟩, material := Material.color 0x00ff00,
                 position := coordsFromLongAndLat M g latitude longitude }] } } := by
  simp [placeMarker, hs, cameraZoomOn_built g _ cam s hc hs, jsOrNum_self, Mesh.add,
    updateLast_append_singleton]

theorem animate_isAnimating (E : Engine R) (g : GlobeState R) :
    (animate E g).isAnimating = g.isAnimating := by
  cases hs : g.sphere <;> cases ha : g.isAnimating <;> simp [animate, hs, ha]

theorem animate_sphere_of_animating (E : Engine R) (g : GlobeState R)
    (h : g.isAnimating = true) : (animate E g).sphere = g.sphere := by
  cases hs : g.sphere <;> simp [animate, hs, h]

theorem cameraZoomOn_isAnimating [DecidableEq R] (g g1 : GlobeState R) (a : ZoomArgs R)
    (h : cameraZoomOn g a = some g1) : g1.isAnimating = true := by
  simp only [cameraZoomOn] at h
  split at h
  · cases h
  · split at h
    · cases h; rfl
    · cases h

theorem placeMarker_isAnimating [DecidableEq R] (E : Engine R) (M : MathObj R)
    (g g1 : GlobeState R) (latitude longitude : R)
    (h : placeMarker E M g latitude longitude = some g1) : g1.isAnimating = true := by
  simp only [placeMarker] at h
  split at h
  · cases h
  · split at h
    · cases h
    · rename_i g2 hz
      have h2 := cameraZoomOn_isAnimating _ _ _ hz
      cases h
      exact h2

theorem step_isAnimating [DecidableEq R] (E : Engine R) (M : MathObj R) (g : GlobeState R)
    (op : Op R) (h : g.isAnimating = true) : (step E M g op).isAnimating = true := by
  cases op with
  | build => simp [step, build, animate_isAnimating, h]
  | placeMarker latitude longitude =>
    simp only [step]
    cases hp : placeMarker E M g latitude longitude with
    | none => simpa using h
    | some g1 => simpa using placeMarker_isAnimating E M g g1 latitude longitude hp
  | cameraZoomOn a =>
    simp only [step]
    cases hz : cameraZoomOn g a with
    | none => simpa using h
    | some g1 => simpa using cameraZoomOn_isAnimating g g1 a hz
  | animate => simp [step, animate_isAnimating, h]

theorem run_isAnimating [DecidableEq R] (E : Engine R) (M : MathObj R) (ops : List (Op R))
    (g : GlobeState R) (h : g.isAnimating = true) : (run E M g ops).isAnimating = true := by
  induction ops generalizing g with
  | nil => simpa [run] using h
  | cons op ops ih =>
    have := ih (step E M g op) (step_isAnimating E M g op h)
    simpa [run] using this

theorem run_animate_sphere [DecidableEq R] (E : Engine R) (M : MathObj R) (n : Nat)
    (g : GlobeState R) (h : g.isAnimating = true) :
    (run E M g (List.replicate n Op.animate)).sphere = g.sphere := by
  induction n generalizing g with
  | zero => rfl
  | succ n ih =>
    have h1 : (animate E g).isAnimating = true := by rw [animate_isAnimating, h]
    have h2 := ih (animate E g) h1
    rw [animate_sphere_of_animating E g h] at h2
    simpa [run, List.replicate_succ, step] using h2

theorem jsOrNum_of_ne [DecidableEq R] (v b : R) (h : v ≠ 0) : jsOrNum (some v) b = v := by
  simp [jsOrNum, h]

theorem jsOrNum_of_unset_or_zero [DecidableEq R] (a : Option R) (b : R)
    (h : a = none ∨ a = some 0) : jsOrNum a b = b := by
  rcases h with h | h <;> simp [jsOrNum, h]

end Lemmas

/-- The cosine at minus half the double `Math.PI`: positive, about `6.123e-17`. -/
theorem cos_neg_half_doublePI_bounds :
    6.12e-17 < Real.cos (-((884279719003555 / 281474976710656 : ℝ) / 2))
    ∧ Real.cos (-((884279719003555 / 281474976710656 : ℝ) / 2)) < 6.13e-17 := by
  have hlo := Real.pi_gt_d20
  have hhi := Real.pi_lt_d20
  have hcos : Real.cos (-((884279719003555 / 281474976710656 : ℝ) / 2))
      = Real.sin (Real.pi / 2 - (884279719003555 / 281474976710656 : ℝ) / 2) := by
    rw [Real.cos_neg, Real.sin_pi_div_two_sub]
  rw [hcos]
  have t0 : (6.1231e-17 : ℝ) < Real.pi / 2 - (884279719003555 / 281474976710656 : ℝ) / 2 := by
    norm_num at hlo ⊢
    linarith
  have t1 : Real.pi / 2 - (884279719003555 / 281474976710656 : ℝ) / 2 < 6.1237e-17 := by
    norm_num at hhi ⊢
    linarith
  have tpos : (0 : ℝ) < Real.pi / 2 - (884279719003555 / 281474976710656 : ℝ) / 2 :=
    lt_trans (by norm_num) t0
  have tle : Real.pi / 2 - (884279719003555 / 281474976710656 : ℝ) / 2 ≤ 1 :=
    le_of_lt (lt_trans t1 (by norm_num))
  have h1 := Real.sin_lt tpos
  have h2 := Real.sin_gt_sub_cube tpos tle
  have h3 : (Real.pi / 2 - (884279719003555 / 281474976710656 : ℝ) / 2) ^ 3
      ≤ (6.1237e-17) ^ 3 :=
    pow_le_pow_left₀ (le_of_lt tpos) (le_of_lt t1) 3
  constructor
  · have h4 : ((6.1237e-17 : ℝ)) ^ 3 / 4 < 1e-21 := by norm_num
    have h5 : (6.12e-17 : ℝ) + 1e-21 < 6.1231e-17 := by norm_num
    linarith
  · have h6 : (6.1237e-17 : ℝ) < 6.13e-17 := by norm_num
    linarith

/-- Latitude 90, longitude 0 over the reals. -/
theorem coords_90_0 (g : GlobeState ℝ) :
    coordsFromLongAndLat ⟨Real.pi, Real.sin, Real.cos⟩ g 90 0 = ⟨0, g.radius, 0⟩ := by
  have h : Real.pi * 90 / 180 - 90 * (Real.pi / 180) = 0 := by ring
  simp only [coordsFromLongAndLat, h]
  simp

/-- The point of `coordsFromLongAndLat` over the reals has squared length `radius^2`. -/
theorem coords_magnitudeSq (g : GlobeState ℝ) (latitude longitude : ℝ) :
    magnitudeSq (coordsFromLongAndLat ⟨Real.pi, Real.sin, Real.cos⟩ g latitude longitude)
      = g.radius ^ 2 := by
  simp only [coordsFromLongAndLat, magnitudeSq]
  have h1 := Real.sin_sq_add_cos_sq (Real.pi * latitude / 180 - 90 * (Real.pi / 180))
  have h2 := Real.sin_sq_add_cos_sq (Real.pi * longitude / 180)
  linear_combination
    (g.radius ^ 2 * Real.sin (Real.pi * latitude / 180 - 90 * (Real.pi / 180)) ^ 2) * h2
      + g.radius ^ 2 * h1

/-! ## Coordinate mapping over the reals -/

/-- C1. Sphere-surface invariant: over the reals, for every latitude, longitude
and radius the point returned by `coordsFromLongAndLat` satisfies
`x^2 + y^2 + z^2 = radius^2`; its distance from the origin is `|radius|`, which
is `radius` when `radius > 0`. -/
theorem coords_on_sphere (g : GlobeState ℝ) (latitude longitude : ℝ) :
    (coordsFromLongAndLat ⟨Real.pi, Real.sin, Real.cos⟩ g latitude longitude).x ^ 2
      + (coordsFromLongAndLat ⟨Real.pi, Real.sin, Real.cos⟩ g latitude longitude).y ^ 2
      + (coordsFromLongAndLat ⟨Real.pi, Real.sin, Real.cos⟩ g latitude longitude).z ^ 2
      = g.radius ^ 2
    ∧ Real.sqrt
        (magnitudeSq (coordsFromLongAndLat ⟨Real.pi, Real.sin, Real.cos⟩ g latitude longitude))
      = |g.radius|
    ∧ (0 < g.radius →
        Real.sqrt
          (magnitudeSq (coordsFromLongAndLat ⟨Real.pi, Real.sin, Real.cos⟩ g latitude longitude))
        = g.radius) := by
  have key := coords_magnitudeSq g latitude longitude
  refine ⟨key, ?_, ?_⟩
  · rw [key, Real.sqrt_sq_eq_abs]
  · intro h
    rw [key, Real.sqrt_sq_eq_abs, abs_of_pos h]

/-- Instance of C1: radius 2, latitude 45, longitude 90. -/
theorem coords_on_sphere_witness :
    (0 : ℝ) < (demoGlobe ⟨Real.pi, Real.sin, Real.cos⟩).radius
    ∧ Real.sqrt
        (magnitudeSq (coordsFromLongAndLat ⟨Real.pi, Real.sin, Real.cos⟩
          (demoGlobe ⟨Real.pi, Real.sin, Real.cos⟩) 45 90))
      = (demoGlobe ⟨Real.pi, Real.sin, Real.cos⟩).radius :=
  have h : (0 : ℝ) < (demoGlobe ⟨Real.pi, Real.sin, Real.cos⟩).radius := by
    show (0 : ℝ) < 2
    norm_num
  ⟨h, (coords_on_sphere (demoGlobe ⟨Real.pi, Real.sin, Real.cos⟩) 45 90).2.2 h⟩

/-- C2. Over the reals `coordsFromLongAndLat` is the reference mapping of the
specification: for every latitude, longitude and radius it returns
`toCartesian latitude longitude radius`, the offset `90 * (π / 180)` of the code
being the `π / 2` of the specification. -/
theorem coords_eq_toCartesian (g : GlobeState ℝ) (latitude longitude : ℝ) :
    coordsFromLongAndLat ⟨Real.pi, Real.sin, Real.cos⟩ g latitude longitude
      = toCartesian ⟨Real.pi, Real.sin, Real.cos⟩ latitude longitude g.radius := by
  have h : Real.pi * latitude / 180 - 90 * (Real.pi / 180)
      = Real.pi * latitude / 180 - Real.pi / 2 := by ring
  simp only [coordsFromLongAndLat, toCartesian, h]

/-- C3. The north pole maps to the +y axis: for every radius,
`coordsFromLongAndLat(90, 0)` is exactly `(0, radius, 0)` over the reals. -/
theorem coords_north_pole (g : GlobeState ℝ) :
    coordsFromLongAndLat ⟨Real.pi, Real.sin, Real.cos⟩ g 90 0 = ⟨0, g.radius, 0⟩ :=
  coords_90_0 g

/-- C4 (amended). Over exact real arithmetic, with `Math.PI = π` and exact sine
and cosine: for every radius, `coordsFromLongAndLat(0, 0)` is `(-radius, 0, 0)`;
latitude 0 becomes `-π/2`, whose sine is `-1` and cosine `0`. -/
theorem coords_origin (g : GlobeState ℝ) :
    coordsFromLongAndLat ⟨Real.pi, Real.sin, Real.cos⟩ g 0 0 = ⟨-g.radius, 0, 0⟩ := by
  have h : Real.pi * 0 / 180 - 90 * (Real.pi / 180) = -(Real.pi / 2) := by ring
  simp only [coordsFromLongAndLat, h]
  simp

/-- C4 as stated fails for the program: `Math.PI` is the double
`884279719003555 / 2^48`, a little below π, so at latitude 0 the shifted
latitude is minus half that constant, not `-π/2`, and its cosine is not 0.  On
the globe built with the default radius 1, `coordsFromLongAndLat(0, 0)` has a
`y` between `6.12e-17` and `6.13e-17`, even with exact sine and cosine. -/
theorem coords_origin_counterexample :
    (coordsFromLongAndLat ⟨884279719003555 / 281474976710656, Real.sin, Real.cos⟩
        (build (sampleEngine ⟨884279719003555 / 281474976710656, Real.sin, Real.cos⟩)
          (construct none none none "earth.jpg")) 0 0).y ≠ 0
    ∧ 6.12e-17 <
      (coordsFromLongAndLat ⟨884279719003555 / 281474976710656, Real.sin, Real.cos⟩
        (build (sampleEngine ⟨884279719003555 / 281474976710656, Real.sin, Real.cos⟩)
          (construct none none none "earth.jpg")) 0 0).y
    ∧ (coordsFromLongAndLat ⟨884279719003555 / 281474976710656, Real.sin, Real.cos⟩
        (build (sampleEngine ⟨884279719003555 / 281474976710656, Real.sin, Real.cos⟩)
          (construct none none none "earth.jpg")) 0 0).y < 6.13e-17 := by
  have hy : (coordsFromLongAndLat ⟨884279719003555 / 281474976710656, Real.sin, Real.cos⟩
        (build (sampleEngine ⟨884279719003555 / 281474976710656, Real.sin, Real.cos⟩)
          (construct none none none "earth.jpg")) 0 0).y
      = Real.cos (-((884279719003555 / 281474976710656 : ℝ) / 2)) := by
    show (1 : ℝ) * Real.cos ((884279719003555 / 281474976710656 : ℝ) * 0 / 180
      - 90 * ((884279719003555 / 281474976710656 : ℝ) / 180)) = _
    rw [one_mul]
    congr 1
    ring
  rw [hy]
  obtain ⟨h1, h2⟩ := cos_neg_half_doublePI_bounds
  refine ⟨?_, h1, h2⟩
  have h0 : (0 : ℝ) < 6.12e-17 := by norm_num
  exact ne_of_gt (lt_trans h0 h1)

section StateClaims

variable {R : Type} [Field R]

/-- C5. On a globe with a camera and a sphere, `cameraZoomOn` with target
`coords` starts exactly two tweens, both of duration 2000 with quadratic in-out
easing: the look-at tween towards `coords` and the position tween towards
`coords + (0.1, 0.1, 0.5)`, whatever the camera position, `currentLookAt` and
the sphere position are. -/
theorem cameraZoomOn_to_state [DecidableEq R] (g : GlobeState R) (a : ZoomArgs R)
    (cam : Camera R) (s : Mesh R) (hc : g.camera = some cam) (hs : g.sphere = some s) :
    ∃ g1 t1 t2, cameraZoomOn g a = some g1 ∧ g1.tweens = g.tweens ++ [t1, t2]
      ∧ t1.channel = Channel.lookAt
      ∧ t1.target = ⟨a.coords.x, a.coords.y, a.coords.z⟩
      ∧ t1.duration = 2000 ∧ t1.easing = Easing.quadraticInOut
      ∧ t2.channel = Channel.position
      ∧ t2.target = ⟨a.coords.x + 0.1, a.coords.y + 0.1, a.coords.z + 0.5⟩
      ∧ t2.duration = 2000 ∧ t2.easing = Easing.quadraticInOut :=
  ⟨_, _, _, cameraZoomOn_built g a cam s hc hs, rfl, rfl, rfl, rfl, rfl, rfl, rfl, rfl, rfl⟩

/-- Instance of C5: the built demo globe, target (1, 2, 3), a partly set
`currentLookAt`. -/
theorem cameraZoomOn_to_state_witness :
    ∃ g1 t1 t2,
      cameraZoomOn (demoGlobe ⟨Real.pi, Real.sin, Real.cos⟩)
        { coords := ⟨1, 2, 3⟩, currentLookAt := ⟨none, some 0, some 5⟩ } = some g1
      ∧ g1.tweens = [t1, t2]
      ∧ t1.channel = Channel.lookAt
      ∧ t1.target = ⟨1, 2, 3⟩
      ∧ t1.duration = 2000 ∧ t1.easing = Easing.quadraticInOut
      ∧ t2.channel = Channel.position
      ∧ t2.target = ⟨1 + 0.1, 2 + 0.1, 3 + 0.5⟩
      ∧ t2.duration = 2000 ∧ t2.easing = Easing.quadraticInOut :=
  cameraZoomOn_to_state (demoGlobe ⟨Real.pi, Real.sin, Real.cos⟩)
    { coords := ⟨1, 2, 3⟩, currentLookAt := ⟨none, some 0, some 5⟩ } _ _ rfl rfl

/-- C6. One call of `animate` never changes `isAnimating`; it leaves the sphere
(so `sphere.rotation.y`) as it was when `isAnimating` is true or there is no
sphere; and when `isAnimating` is false and a sphere is present it adds exactly
0.002 to `sphere.rotation.y` and changes nothing else of the sphere. -/
theorem animate_rotation_gate (E : Engine R) (g : GlobeState R) :
    (animate E g).isAnimating = g.isAnimating
    ∧ (g.isAnimating = true ∨ g.sphere = none → (animate E g).sphere = g.sphere)
    ∧ (∀ s, g.isAnimating = false → g.sphere = some s →
        (animate E g).sphere
          = some { s with rotation := { s.rotation with y := s.rotation.y + 0.002 } }) := by
  refine ⟨animate_isAnimating E g, ?_, ?_⟩
  · rintro (h | h)
    · exact animate_sphere_of_animating E g h
    · simp [animate, h]
  · intro s ha hs
    simp [animate, ha, hs]

/-- Instance of C6: a tick on the built demo globe while idle, and a tick on
the same globe with the flag set. -/
theorem animate_rotation_gate_witness :
    (animate (sampleEngine ⟨Real.pi, Real.sin, Real.cos⟩)
        (demoGlobe ⟨Real.pi, Real.sin, Real.cos⟩)).sphere
      = some
          { geometry := ⟨2, 80, 80⟩, material := Material.map "earth.jpg",
            position := ⟨0, 0, 0⟩, rotation := ⟨0.4, 0 + 0.002 + 0.002, 0⟩, children := [] }
    ∧ (animate (sampleEngine ⟨Real.pi, Real.sin, Real.cos⟩)
        { demoGlobe ⟨Real.pi, Real.sin, Real.cos⟩ with isAnimating := true }).sphere
      = some
          { geometry := ⟨2, 80, 80⟩, material := Material.map "earth.jpg",
            position := ⟨0, 0, 0⟩, rotation := ⟨0.4, 0 + 0.002, 0⟩, children := [] } :=
  ⟨(animate_rotation_gate (sampleEngine ⟨Real.pi, Real.sin, Real.cos⟩)
      (demoGlobe ⟨Real.pi, Real.sin, Real.cos⟩)).2.2 _ rfl rfl,
   (animate_rotation_gate (sampleEngine ⟨Real.pi, Real.sin, Real.cos⟩)
      { demoGlobe ⟨Real.pi, Real.sin, Real.cos⟩ with isAnimating := true }).2.1 (Or.inl rfl)⟩

/-- C7. On a globe with a camera and a sphere, `placeMarker(latitude, longitude)`
returns and leaves the sphere with its former children followed by exactly one
new child, whose local position is `coordsFromLongAndLat(latitude, longitude)`. -/
theorem placeMarker_adds_marker [DecidableEq R] (E : Engine R) (M : MathObj R)
    (g : GlobeState R) (latitude longitude : R) (cam : Camera R) (s : Mesh R)
    (hc : g.camera = some cam) (hs : g.sphere = some s) :
    ∃ g1 s1 m, placeMarker E M g latitude longitude = some g1 ∧ g1.sphere = some s1
      ∧ s1.children = s.children ++ [m]
      ∧ s1.children.length = s.children.length + 1
      ∧ m.position = coordsFromLongAndLat M g latitude longitude :=
  ⟨_, _, _, placeMarker_built E M g latitude longitude cam s hc hs, rfl, rfl, by simp, rfl⟩

/-- Instance of C7: a marker at latitude 45, longitude 90 on the built demo
globe, which has no children yet. -/
theorem placeMarker_adds_marker_witness :
    ∃ g1 s1 m,
      placeMarker (sampleEngine ⟨Real.pi, Real.sin, Real.cos⟩) ⟨Real.pi, Real.sin, Real.cos⟩
        (demoGlobe ⟨Real.pi, Real.sin, Real.cos⟩) 45 90 = some g1
      ∧ g1.sphere = some s1
      ∧ s1.children = [m]
      ∧ s1.children.length = 0 + 1
      ∧ m.position = coordsFromLongAndLat ⟨Real.pi, Real.sin, Real.cos⟩
          (demoGlobe ⟨Real.pi, Real.sin, Real.cos⟩) 45 90 :=
  placeMarker_adds_marker (sampleEngine ⟨Real.pi, Real.sin, Real.cos⟩)
    ⟨Real.pi, Real.sin, Real.cos⟩ (demoGlobe ⟨Real.pi, Real.sin, Real.cos⟩) 45 90 _ _ rfl rfl

/-- C8. The animating flag is set by `placeMarker` and never cleared.  It is
false on a constructed globe and after building it; `placeMarker` on a globe
with a camera and a sphere returns with the flag true, and so does every
`cameraZoomOn` that returns; no operation (`build`, `placeMarker`,
`cameraZoomOn`, `animate`) takes it from true to false; hence after a
`placeMarker`, whatever operations follow, the flag is true, an `animate` tick
leaves the sphere (so `sphere.rotation.y`) as it is, and any number of ticks in
a row leave it as it is. -/
theorem isAnimating_never_cleared [DecidableEq R] (E : Engine R) (M : MathObj R) :
    (∀ (w h r : Option R) (t : String),
        (construct w h r t).isAnimating = false
        ∧ (build E (construct w h r t)).isAnimating = false)
    ∧ (∀ (g g1 : GlobeState R) (a : ZoomArgs R),
        cameraZoomOn g a = some g1 → g1.isAnimating = true)
    ∧ (∀ (g : GlobeState R) (op : Op R),
        g.isAnimating = true → (step E M g op).isAnimating = true)
    ∧ (∀ (g : GlobeState R) (latitude longitude : R) (cam : Camera R) (s : Mesh R),
        g.camera = some cam → g.sphere = some s →
        ∃ g1, placeMarker E M g latitude longitude = some g1 ∧ g1.isAnimating = true
          ∧ ∀ ops : List (Op R),
              (run E M g1 ops).isAnimating = true
              ∧ (animate E (run E M g1 ops)).sphere = (run E M g1 ops).sphere
              ∧ ∀ n : Nat,
                  (run E M (run E M g1 ops) (List.replicate n Op.animate)).sphere
                    = (run E M g1 ops).sphere) := by
  refine ⟨?_, ?_, ?_, ?_⟩
  · intro w h r t
    exact ⟨rfl, by rw [build, animate_isAnimating]; rfl⟩
  · intro g g1 a h
    exact cameraZoomOn_isAnimating g g1 a h
  · intro g op h
    exact step_isAnimating E M g op h
  · intro g latitude longitude cam s hc hs
    have hp := placeMarker_built E M g latitude longitude cam s hc hs
    refine ⟨_, hp, rfl, ?_⟩
    intro ops
    have hr := run_isAnimating E M ops _
      (placeMarker_isAnimating E M g _ latitude longitude hp)
    exact ⟨hr, animate_sphere_of_animating E _ hr, fun n => run_animate_sphere E M n _ hr⟩

/-- Instance of C8: a marker placed on the built demo globe, then a tick, a
second `build` and another tick. -/
theorem isAnimating_never_cleared_witness :
    ∃ g1,
      placeMarker (sampleEngine ⟨Real.pi, Real.sin, Real.cos⟩) ⟨Real.pi, Real.sin, Real.cos⟩
        (demoGlobe ⟨Real.pi, Real.sin, Real.cos⟩) 45 90 = some g1
      ∧ g1.isAnimating = true
      ∧ (run (sampleEngine ⟨Real.pi, Real.sin, Real.cos⟩) ⟨Real.pi, Real.sin, Real.cos⟩ g1
          [Op.animate, Op.build, Op.animate]).isAnimating = true
      ∧ (animate (sampleEngine ⟨Real.pi, Real.sin, Real.cos⟩)
          (run (sampleEngine ⟨Real.pi, Real.sin, Real.cos⟩) ⟨Real.pi, Real.sin, Real.cos⟩ g1
            [Op.animate, Op.build, Op.animate])).sphere
        = (run (sampleEngine ⟨Real.pi, Real.sin, Real.cos⟩) ⟨Real.pi, Real.sin, Real.cos⟩ g1
            [Op.animate, Op.build, Op.animate]).sphere :=
  match (isAnimating_never_cleared (sampleEngine ⟨Real.pi, Real.sin, Real.cos⟩)
      ⟨Real.pi, Real.sin, Real.cos⟩).2.2.2
      (demoGlobe ⟨Real.pi, Real.sin, Real.cos⟩) 45 90 _ _ rfl rfl with
  | ⟨g1, hp, ha, hops⟩ =>
    ⟨g1, hp, ha, (hops [Op.animate, Op.build, Op.animate]).1,
      (hops [Op.animate, Op.build, Op.animate]).2.1⟩

/-- C9 (amended). End-to-end focus target, over exact real arithmetic
(`Math.PI = π`, exact sine, cosine and square root): on a globe with a camera
and a sphere, `placeMarker` adds a marker whose local position
`p = coordsFromLongAndLat(latitude, longitude)` has length `|radius|` (the
radius itself when it is not negative), and starts a look-at tween towards
`sphere.localToWorld(p)` and a position tween towards that world point plus
`(0.1, 0.1, 0.5)`. -/
theorem placeMarker_focus_target (E : Engine ℝ) (g : GlobeState ℝ) (latitude longitude : ℝ)
    (cam : Camera ℝ) (s : Mesh ℝ) (hc : g.camera = some cam) (hs : g.sphere = some s) :
    ∃ g1 s1 m t1 t2,
      placeMarker E ⟨Real.pi, Real.sin, Real.cos⟩ g latitude longitude = some g1
      ∧ g1.sphere = some s1 ∧ s1.children = s.children ++ [m]
      ∧ m.position = coordsFromLongAndLat ⟨Real.pi, Real.sin, Real.cos⟩ g latitude longitude
      ∧ Real.sqrt (magnitudeSq m.position) = |g.radius|
      ∧ (0 ≤ g.radius → Real.sqrt (magnitudeSq m.position) = g.radius)
      ∧ g1.tweens = g.tweens ++ [t1, t2]
      ∧ t1.channel = Channel.lookAt ∧ t1.target = E.localToWorld s m.position
      ∧ t1.duration = 2000
      ∧ t2.channel = Channel.position
      ∧ t2.target = ⟨(E.localToWorld s m.position).x + 0.1,
                     (E.localToWorld s m.position).y + 0.1,
                     (E.localToWorld s m.position).z + 0.5⟩
      ∧ t2.duration = 2000 := by
  have hm : Real.sqrt
      (magnitudeSq (coordsFromLongAndLat ⟨Real.pi, Real.sin, Real.cos⟩ g latitude longitude))
      = |g.radius| := by
    rw [coords_magnitudeSq, Real.sqrt_sq_eq_abs]
  exact ⟨_, _, _, _, _,
    placeMarker_built E ⟨Real.pi, Real.sin, Real.cos⟩ g latitude longitude cam s hc hs,
    rfl, rfl, rfl, hm, fun h => by rw [hm, abs_of_nonneg h], rfl, rfl, rfl, rfl, rfl, rfl, rfl⟩

/-- Instance of C9: radius 2, latitude 45, longitude 90; the marker lies at
distance 2 from the centre of the sphere. -/
theorem placeMarker_focus_target_witness :
    ∃ g1 s1 m t1 t2,
      placeMarker (sampleEngine ⟨Real.pi, Real.sin, Real.cos⟩) ⟨Real.pi, Real.sin, Real.cos⟩
        (demoGlobe ⟨Real.pi, Real.sin, Real.cos⟩) 45 90 = some g1
      ∧ g1.sphere = some s1 ∧ s1.children = [m]
      ∧ Real.sqrt (magnitudeSq m.position) = 2
      ∧ g1.tweens = [t1, t2]
      ∧ t1.channel = Channel.lookAt
      ∧ t1.target = (sampleEngine ⟨Real.pi, Real.sin, Real.cos⟩).localToWorld
          { geometry := ⟨2, 80, 80⟩, material := Material.map "earth.jpg",
            position := ⟨0, 0, 0⟩, rotation := ⟨0.4, 0 + 0.002, 0⟩, children := [] }
          m.position :=
  match placeMarker_focus_target (sampleEngine ⟨Real.pi, Real.sin, Real.cos⟩)
      (demoGlobe ⟨Real.pi, Real.sin, Real.cos⟩) 45 90 _ _ rfl rfl with
  | ⟨g1, s1, m, t1, t2, hp, h1, h2, _, _, h5, h6, h7, h8, _⟩ =>
    ⟨g1, s1, m, t1, t2, hp, h1, h2,
      h5 (show (0 : ℝ) ≤ 2 by norm_num), h6, h7, h8⟩

/-- C9 as stated fails for a negative radius: on the globe built with radius
`-1`, the marker placed at latitude 90, longitude 0 lies at distance 1 from the
origin, which is not the globe radius. -/
theorem placeMarker_focus_target_counterexample :
    ∃ g1 s1 m,
      placeMarker (sampleEngine ⟨Real.pi, Real.sin, Real.cos⟩) ⟨Real.pi, Real.sin, Real.cos⟩
        (build (sampleEngine ⟨Real.pi, Real.sin, Real.cos⟩)
          (construct none none (some (-1)) "earth.jpg")) 90 0 = some g1
      ∧ g1.sphere = some s1 ∧ s1.children = [m]
      ∧ g1.radius = -1
      ∧ Real.sqrt (magnitudeSq m.position) = 1
      ∧ Real.sqrt (magnitudeSq m.position) ≠ g1.radius := by
  have hp := placeMarker_built (sampleEngine ⟨Real.pi, Real.sin, Real.cos⟩)
    ⟨Real.pi, Real.sin, Real.cos⟩
    (build (sampleEngine ⟨Real.pi, Real.sin, Real.cos⟩)
      (construct none none (some (-1)) "earth.jpg")) 90 0 _ _ rfl rfl
  have hm : Real.sqrt (magnitudeSq (coordsFromLongAndLat ⟨Real.pi, Real.sin, Real.cos⟩
      (build (sampleEngine ⟨Real.pi, Real.sin, Real.cos⟩)
        (construct none none (some (-1)) "earth.jpg")) 90 0)) = 1 := by
    rw [coords_90_0]
    have hr : (build (sampleEngine ⟨Real.pi, Real.sin, Real.cos⟩)
        (construct none none (some (-1)) "earth.jpg")).radius = (-1 : ℝ) := rfl
    simp [magnitudeSq, hr]
  refine ⟨_, _, _, hp, rfl, rfl, rfl, hm, ?_⟩
  rw [hm]
  show (1 : ℝ) ≠ -1
  norm_num

/-- C10. On a globe with a camera and a sphere, the tweens `cameraZoomOn`
starts begin at the "from" state: the position tween at the camera's position,
and the look-at tween, component by component, at the component of
`currentLookAt` when it is set and not zero and at the sphere's position
component otherwise.  `placeMarker` passes the sphere's position, so there the
look-at tween begins at the sphere's position whatever the camera looked at. -/
theorem cameraZoomOn_from_state [DecidableEq R] (E : Engine R) (M : MathObj R)
    (g : GlobeState R) (a : ZoomArgs R) (latitude longitude : R)
    (cam : Camera R) (s : Mesh R) (hc : g.camera = some cam) (hs : g.sphere = some s) :
    (∃ g1 t1 t2, cameraZoomOn g a = some g1 ∧ g1.tweens = g.tweens ++ [t1, t2]
      ∧ t1.channel = Channel.lookAt ∧ t2.channel = Channel.position
      ∧ t2.object = cam.position
      ∧ (∀ v, a.currentLookAt.x = some v → v ≠ 0 → t1.object.x = v)
      ∧ (a.currentLookAt.x = none ∨ a.currentLookAt.x = some 0 → t1.object.x = s.position.x)
      ∧ (∀ v, a.currentLookAt.y = some v → v ≠ 0 → t1.object.y = v)
      ∧ (a.currentLookAt.y = none ∨ a.currentLookAt.y = some 0 → t1.object.y = s.position.y)
      ∧ (∀ v, a.currentLookAt.z = some v → v ≠ 0 → t1.object.z = v)
      ∧ (a.currentLookAt.z = none ∨ a.currentLookAt.z = some 0 → t1.object.z = s.position.z))
    ∧ (∃ g1 t1 t2, placeMarker E M g latitude longitude = some g1
      ∧ g1.tweens = g.tweens ++ [t1, t2]
      ∧ t1.channel = Channel.lookAt ∧ t1.object = s.position
      ∧ t2.channel = Channel.position ∧ t2.object = cam.position) := by
  refine ⟨⟨_, _, _, cameraZoomOn_built g a cam s hc hs, rfl, rfl, rfl, rfl, ?_, ?_, ?_, ?_, ?_, ?_⟩,
    ⟨_, _, _, placeMarker_built E M g latitude longitude cam s hc hs, rfl, rfl, rfl, rfl, rfl⟩⟩
  · intro v hv hne
    simp only [hv]
    exact jsOrNum_of_ne v _ hne
  · intro h
    exact jsOrNum_of_unset_or_zero _ _ h
  · intro v hv hne
    simp only [hv]
    exact jsOrNum_of_ne v _ hne
  · intro h
    exact jsOrNum_of_unset_or_zero _ _ h
  · intro v hv hne
    simp only [hv]
    exact jsOrNum_of_ne v _ hne
  · intro h
    exact jsOrNum_of_unset_or_zero _ _ h

/-- Instance of C10: on the built demo globe (camera at (0, 0, 3), sphere at the
origin) with `currentLookAt = {y: 0, z: 5}`, the look-at tween begins at
(0, 0, 5) and the position tween at the camera; through `placeMarker` the
look-at tween begins at the sphere's position. -/
theorem cameraZoomOn_from_state_witness :
    (∃ g1 t1 t2,
      cameraZoomOn (demoGlobe ⟨Real.pi, Real.sin, Real.cos⟩)
        { coords := ⟨1, 2, 3⟩, currentLookAt := ⟨none, some 0, some 5⟩ } = some g1
      ∧ g1.tweens = [t1, t2]
      ∧ t2.object = ⟨0, 0, 3⟩
      ∧ t1.object.x = 0 ∧ t1.object.y = 0 ∧ t1.object.z = 5)
    ∧ (∃ g1 t1 t2,
      placeMarker (sampleEngine ⟨Real.pi, Real.sin, Real.cos⟩) ⟨Real.pi, Real.sin, Real.cos⟩
        (demoGlobe ⟨Real.pi, Real.sin, Real.cos⟩) 45 90 = some g1
      ∧ g1.tweens = [t1, t2]
      ∧ t1.object = ⟨0, 0, 0⟩ ∧ t2.object = ⟨0, 0, 3⟩) :=
  by
  have h := cameraZoomOn_from_state (sampleEngine ⟨Real.pi, Real.sin, Real.cos⟩)
    ⟨Real.pi, Real.sin, Real.cos⟩ (demoGlobe ⟨Real.pi, Real.sin, Real.cos⟩)
    { coords := ⟨1, 2, 3⟩, currentLookAt := ⟨none, some 0, some 5⟩ } 45 90 _ _ rfl rfl
  obtain ⟨⟨g1, t1, t2, hz, ht, -, -, hpos, -, hx, -, hy, hzv, -⟩,
    ⟨g2, u1, u2, hp, hu, -, ho, -, hq⟩⟩ := h
  have h5 : (5 : ℝ) ≠ 0 := by norm_num
  exact ⟨⟨g1, t1, t2, hz, ht, hpos, hx (Or.inl rfl), hy (Or.inr rfl), hzv 5 rfl h5⟩,
    ⟨g2, u1, u2, hp, hu, ho, hq⟩⟩

end StateClaims

end GeoGlobe
